import Mathlib

/-!
Verification development for the `multi-ollama` browser-automation agent
(`src/agent.py`). The Python module is shallowly embedded below: the
pydantic models `PlanStep` and `CommandOutput`, the pydantic validation
performed by `send_to_model` (modelled over an explicit JSON value type),
`process_model_output`, `check_for_stagnation`, `execute_browser_commands`
(with the live page abstracted as a trace of page actions plus an oracle
saying which browser primitives raise), `load_user_profile` /
`save_user_profile` / `manage_session` (with the `profiles/` directory as
an association list), and the `run_automation` control loop (with the
model endpoint and the page-element scan abstracted as per-iteration
oracles, and the loop driven by fuel since the Python `while True` need
not terminate). Whitespace-only formatting details of `json.dumps(...,
indent=2)` and of the triple-quoted prompt literals are normalised; the
interpolated structure of the prompts is kept exactly.
-/

set_option maxRecDepth 4000

namespace MultiOllama

/-- JSON values, the result of `json.loads` on the model's raw response. -/
inductive Json where
  | null : Json
  | bool (b : Bool) : Json
  | num (n : Int) : Json
  | str (s : String) : Json
  | arr (elems : List Json) : Json
  | obj (fields : List (String × Json)) : Json

/-- `class PlanStep(BaseModel)`: one step of a plan. -/
structure PlanStep where
  step_desc : String
  command : String
deriving DecidableEq, Repr

/-- `class CommandOutput(BaseModel)`: a validated model response.
`pageContextObjects` and `userInfo` are free-form dicts; `status` is
`Optional[str] = None`. -/
structure CommandOutput where
  PLAN : List PlanStep
  pageContextObjects : List (String × Json)
  userInfo : List (String × Json)
  status : Option String

/-- Field lookup in a parsed JSON object (Python dict access). -/
def lookupField (fields : List (String × Json)) (key : String) : Option Json :=
  (fields.find? (fun f => f.1 == key)).map (fun f => f.2)

def asStr : Json → Option String
  | .str s => some s
  | _ => none

def asObj : Json → Option (List (String × Json))
  | .obj fields => some fields
  | _ => none

/-- Pydantic validation of one `PlanStep`: both fields must be present
strings (any string, the empty string included). -/
def validatePlanStep (j : Json) : Option PlanStep := do
  let fields ← asObj j
  let d ← lookupField fields "step_desc" >>= asStr
  let c ← lookupField fields "command" >>= asStr
  pure ⟨d, c⟩

/-- Element-wise validation of the `PLAN` list. -/
def validateSteps : List Json → Option (List PlanStep)
  | [] => some []
  | j :: js => do
      let s ← validatePlanStep j
      let rest ← validateSteps js
      pure (s :: rest)

/-- Pydantic validation `CommandOutput(**parsed_response)`: `PLAN` must be
a list of valid steps, `pageContextObjects` and `userInfo` must be dicts,
`status` is optional (absent or `null` become `None`, a string stays).
Extra keys are ignored; on any violation no object is constructed
(`ValidationError`, modelled as `none`). Numeric-to-string coercion of
legacy pydantic is not modelled. -/
def validateCommandOutput (j : Json) : Option CommandOutput := do
  let fields ← asObj j
  let planJson ← lookupField fields "PLAN"
  let planArr ← (match planJson with
    | .arr elems => some elems
    | _ => none)
  let plan ← validateSteps planArr
  let pco ← lookupField fields "pageContextObjects" >>= asObj
  let ui ← lookupField fields "userInfo" >>= asObj
  let st ← (match lookupField fields "status" with
    | none => some (none : Option String)
    | some .null => some none
    | some (.str s) => some (some s)
    | some _ => none)
  pure ⟨plan, pco, ui, st⟩

/-- Modelled from the spec (amended C4): the shape that validation is
claimed to accept — `PLAN` a sequence of maps each holding string-typed
`step_desc` and `command`, both required context maps present, `status`
absent, null or a string. -/
def stepWellShaped (j : Json) : Bool :=
  match j with
  | .obj fields =>
      (match lookupField fields "step_desc" with
        | some (.str _) => true
        | _ => false)
      && (match lookupField fields "command" with
        | some (.str _) => true
        | _ => false)
  | _ => false

/-- Modelled from the spec (amended C4), continued: well-shapedness of a
whole payload. -/
def outputWellShaped (j : Json) : Bool :=
  match j with
  | .obj fields =>
      (match lookupField fields "PLAN" with
        | some (.arr elems) => elems.all stepWellShaped
        | _ => false)
      && (match lookupField fields "pageContextObjects" with
        | some (.obj _) => true
        | _ => false)
      && (match lookupField fields "userInfo" with
        | some (.obj _) => true
        | _ => false)
      && (match lookupField fields "status" with
        | none => true
        | some .null => true
        | some (.str _) => true
        | some _ => false)
  | _ => false

/-- Tokeniser underlying Python `str.split()`: walk the characters,
accumulating the current token (reversed) and emitting it at each
whitespace run boundary; empty tokens are never produced. -/
def wsTokens : List Char → List Char → List String
  | [], cur => if cur.isEmpty then [] else [String.mk cur.reverse]
  | c :: cs, cur =>
    if c.isWhitespace then
      if cur.isEmpty then wsTokens cs []
      else String.mk cur.reverse :: wsTokens cs []
    else wsTokens cs (c :: cur)

/-- Python `str.split()` with no argument: split on whitespace runs,
dropping empty tokens. -/
def pySplit (s : String) : List String :=
  wsTokens s.data []

/-- `process_model_output`: extract the truthy commands, the joined step
descriptions, and the status (falsy status, `None` or `""`, becomes
`"NOT SURE"`). -/
def process_model_output (output : Option CommandOutput) :
    List String × String × String :=
  match output with
  | none => ([], "", "NOT SURE")
  | some o =>
      let commands := (o.PLAN.filter (fun s => s.command ≠ "")).map (fun s => s.command)
      let explanation := String.intercalate " " (o.PLAN.map (fun s => s.step_desc))
      let st := match o.status with
        | some s => if s = "" then "NOT SURE" else s
        | none => "NOT SURE"
      (commands, explanation, st)

/-- `check_for_stagnation(previous_plan, current_plan)`: Python `==`,
structural equality (`previous_plan` is `None` before the first
iteration, hence the `Option`). -/
def check_for_stagnation (previous_plan current_plan : Option (List PlanStep)) : Bool :=
  previous_plan == current_plan

/-- One call to a Playwright page-interaction primitive. -/
inductive PageAction where
  | goto (url : String) : PageAction
  | click (selector : String) : PageAction
  | fill (selector : String) (text : String) : PageAction
  | press (selector : String) (key : String) : PageAction
deriving DecidableEq, Repr

/-- Observable events of `execute_browser_commands`: performed page
actions, logged warnings, and a Search API call. -/
inductive ExecEvent where
  | act (a : PageAction) : ExecEvent
  | warnEmpty : ExecEvent
  | warnUnmapped (name : String) : ExecEvent
  | warnUnknown (cmd : String) : ExecEvent
  | searchApi (query : String) : ExecEvent
deriving DecidableEq, Repr

/-- An exception inside the interpreter's `try` block. -/
inductive ExecError where
  | pageRaised (a : PageAction) : ExecError
  | indexError : ExecError
deriving DecidableEq, Repr

/-- How a batch ended: fell off the loop (returns `None`), returned
Google search results, or an exception was caught by the `except` clause
(logged, not re-raised). -/
inductive ExecOutcome where
  | completed : ExecOutcome
  | searchReturned (query : String) : ExecOutcome
  | aborted (e : ExecError) : ExecOutcome
deriving DecidableEq, Repr

/-- Element-map lookup, `element_name in elements` / `elements[element_name]`. -/
def lookupElem (elements : List (String × String)) (name : String) : Option String :=
  (elements.find? (fun e => e.1 == name)).map (fun e => e.2)

/-- One page-interaction primitive call inside the interpreter's `try`
block: if the primitive raises, the exception aborts the batch (caught
and logged by the `except` clause); otherwise the action is performed
and execution continues with the given continuation. -/
def tryAction (raises : PageAction → Bool) (a : PageAction)
    (k : List ExecEvent × ExecOutcome) : List ExecEvent × ExecOutcome :=
  if raises a then ([], .aborted (.pageRaised a))
  else (ExecEvent.act a :: k.1, k.2)

/-- `execute_browser_commands(page, commands, elements)`. The page is
abstracted by `raises`, telling which primitive calls throw. Each
command: falsy commands are skipped; `parts = command.split()` and a
whitespace-only command hits `parts[0]` (IndexError, caught by the outer
`except`, aborting the batch); `GOTO_URL` with no argument hits
`parts[1]` likewise; `CLICK`/`TYPE`/`SUBMIT` with enough tokens resolve
their element or warn and continue; `GOOGLE_SEARCH_API` returns the
search results at once, dropping the remaining commands; anything else
warns and continues. -/
def execCmds (raises : PageAction → Bool) (elements : List (String × String)) :
    List String → List ExecEvent × ExecOutcome
  | [] => ([], .completed)
  | c :: rest =>
    if c = "" then
      (ExecEvent.warnEmpty :: (execCmds raises elements rest).1,
       (execCmds raises elements rest).2)
    else
      match pySplit c with
      | [] => ([], .aborted .indexError)
      | ["GOTO_URL"] => ([], .aborted .indexError)
      | "GOTO_URL" :: url :: _ =>
          tryAction raises (PageAction.goto url) (execCmds raises elements rest)
      | "CLICK" :: name :: _ =>
          (match lookupElem elements name with
            | some sel =>
                tryAction raises (PageAction.click sel) (execCmds raises elements rest)
            | none =>
                (ExecEvent.warnUnmapped name :: (execCmds raises elements rest).1,
                 (execCmds raises elements rest).2))
      | "TYPE" :: name :: t :: ts =>
          (match lookupElem elements name with
            | some sel =>
                tryAction raises (PageAction.fill sel (String.intercalate " " (t :: ts)))
                  (execCmds raises elements rest)
            | none =>
                (ExecEvent.warnUnmapped name :: (execCmds raises elements rest).1,
                 (execCmds raises elements rest).2))
      | "SUBMIT" :: name :: _ =>
          (match lookupElem elements name with
            | some sel =>
                tryAction raises (PageAction.press sel "Enter") (execCmds raises elements rest)
            | none =>
                (ExecEvent.warnUnmapped name :: (execCmds raises elements rest).1,
                 (execCmds raises elements rest).2))
      | "GOOGLE_SEARCH_API" :: args =>
          ([ExecEvent.searchApi (String.intercalate " " args)],
           .searchReturned (String.intercalate " " args))
      | _ =>
          (ExecEvent.warnUnknown c :: (execCmds raises elements rest).1,
           (execCmds raises elements rest).2)

/-- The navigation-phase execution of line 370,
`execute_browser_commands(page, [commands[0]], {})`: exactly one command,
an empty element map. -/
def navPhaseExec (raises : PageAction → Bool) (c : String) :
    List ExecEvent × ExecOutcome :=
  execCmds raises [] [c]

/-- One persisted `profiles/<user_id>.json` file. -/
structure Profile where
  user_id : String
  preferences : List (String × Json)
  session_history : List Json

/-- `load_user_profile`: read the file if it exists, else the fresh
default `{"user_id": ..., "preferences": {}, "session_history": []}`. -/
def load_user_profile (disk : List (String × Profile)) (uid : String) : Profile :=
  match (disk.find? (fun e => e.1 == uid)).map (fun e => e.2) with
  | some p => p
  | none => ⟨uid, [], []⟩

/-- `save_user_profile`: whole-file overwrite (create the file if new). -/
def save_user_profile (disk : List (String × Profile)) (uid : String)
    (p : Profile) : List (String × Profile) :=
  if disk.any (fun e => e.1 == uid) then
    disk.map (fun e => if e.1 == uid then (uid, p) else e)
  else
    disk ++ [(uid, p)]

/-- The mutable world of `manage_session`: the module-level global
`session_data` and the `profiles/` directory. -/
structure AgentState where
  session_data : List Json
  disk : List (String × Profile)

inductive SessionAction where
  | load : SessionAction
  | save (data : Json) : SessionAction
  | clear : SessionAction

/-- `manage_session(user_id, action, data)`: `load` overwrites the global
`session_data` from the profile file; `save` re-loads the profile,
appends `data` to its history and writes it back; `clear` only resets
the global. -/
def manage_session (st : AgentState) (user_id : String) :
    SessionAction → AgentState
  | .load =>
      { st with
        session_data := (load_user_profile st.disk user_id).session_history }
  | .save d =>
      let p := load_user_profile st.disk user_id
      { st with
        disk := save_user_profile st.disk user_id
          { p with session_history := p.session_history ++ [d] } }
  | .clear => { st with session_data := [] }

mutual

/-- Serialisation of a JSON value, `json.dumps` with the `indent=2`
line-breaking normalised to single-line separators. -/
def dumpJson : Json → String
  | .null => "null"
  | .bool b => cond b "true" "false"
  | .num n => toString n
  | .str s => "\x22" ++ s ++ "\x22"
  | .arr elems => "[" ++ String.intercalate ", " (dumpJsonList elems) ++ "]"
  | .obj fields => "\x7b" ++ String.intercalate ", " (dumpJsonFields fields) ++ "\x7d"

def dumpJsonList : List Json → List String
  | [] => []
  | j :: js => dumpJson j :: dumpJsonList js

def dumpJsonFields : List (String × Json) → List String
  | [] => []
  | f :: fs => ("\x22" ++ f.1 ++ "\x22: " ++ dumpJson f.2) :: dumpJsonFields fs

end

/-- `model_output.dict()` as a JSON value. -/
def outputToJson (o : CommandOutput) : Json :=
  .obj
    [("PLAN", .arr (o.PLAN.map (fun s =>
        .obj [("step_desc", .str s.step_desc), ("command", .str s.command)]))),
     ("pageContextObjects", .obj o.pageContextObjects),
     ("userInfo", .obj o.userInfo),
     ("status", match o.status with
       | some s => .str s
       | none => .null)]

/-- `json.dumps(model_output.dict(), indent=2)` (whitespace normalised). -/
def dumpOutput (o : CommandOutput) : String :=
  dumpJson (outputToJson o)

/-- The `current_plan` loop variable: the string `"No plan yet"` at
start, afterwards the latest navigation-phase `PLAN` list. -/
inductive CurrentPlan where
  | noPlanYet : CurrentPlan
  | plan (steps : List PlanStep) : CurrentPlan
deriving DecidableEq, Repr

/-- Python `repr` of one pydantic `PlanStep`, as the f-string renders it. -/
def reprStep (s : PlanStep) : String :=
  "PlanStep(step_desc=\x27" ++ s.step_desc ++ "\x27, command=\x27" ++ s.command ++ "\x27)"

/-- Rendering of `{current_plan}` inside the prompts. -/
def renderCurrentPlan : CurrentPlan → String
  | .noPlanYet => "No plan yet"
  | .plan steps => "[" ++ String.intercalate ", " (steps.map reprStep) ++ "]"

/-- Python `str` of `list(elements.keys())` in the action prompt. -/
def reprKeyList (keys : List String) : String :=
  "[" ++ String.intercalate ", " (keys.map (fun k => "\x27" ++ k ++ "\x27")) ++ "]"

/-- The JSON output-format block shared by both prompt templates (with
the example command of the given phase). -/
def promptFormatBlock (exampleCmd : String) : String :=
  "The output MUST be a JSON object following this structure:\n" ++
  "\x7b\n" ++
  "    \x22PLAN\x22: [\n" ++
  "        \x7b\n" ++
  "            \x22step_desc\x22: \x22Description of the step\x22,\n" ++
  "            \x22command\x22: \x22Command to be executed (e.g., " ++ exampleCmd ++ ")\x22\n" ++
  "        \x7d\n" ++
  "    ],\n" ++
  "    \x22pageContextObjects\x22: \x7b\x7d,\n" ++
  "    \x22userInfo\x22: \x7b\x7d,\n" ++
  "    \x22status\x22: \x22DONE\x22\n" ++
  "\x7d"

/-- The navigation-phase system prompt (lines 310-344), the triple-quoted
f-string with its indentation normalised; the interpolated values
`user_objective`, `current_plan` and `session_messages` appear exactly
where the source puts them. -/
def navPrompt (objective currentPlanStr sessionMessages : String) : String :=
  "You are an expert agent named MULTI·ON developed by \x22MultiOn\x22 " ++
  "controlling a browser (you are not just a language model anymore).\n" ++
  "You are given:\n" ++
  "1. An objective that you are trying to achieve: " ++ objective ++ "\n" ++
  "Start with navigation by using \x22GOTO_URL\x22 followed by the URL.\n" ++
  "After navigation, inspect the page and issue the next commands based on the available elements.\n" ++
  "IMPORTANT:\n" ++
  "- Do not assume elements exist before seeing the page.\n" ++
  "- Use the available elements after loading the page.\n" ++
  currentPlanStr ++ "\n" ++
  sessionMessages ++ "\n" ++
  promptFormatBlock "GOTO_URL https://example.com"

/-- The action-phase system prompt (lines 377-408): interpolates the
element-key list, `current_plan` and `session_messages`. -/
def actionPrompt (elementKeysStr currentPlanStr sessionMessages : String) : String :=
  "You are an expert agent named MULTI·ON developed by \x22MultiOn\x22 controlling a browser.\n" ++
  "You have successfully navigated to the page. The next steps involve interacting with the page elements.\n" ++
  elementKeysStr ++ "\n" ++
  currentPlanStr ++ "\n" ++
  "Based on the elements, choose appropriate actions like CLICK, TYPE, SUBMIT, etc.\n" ++
  sessionMessages ++ "\n" ++
  promptFormatBlock "CLICK input_placeholder_0"

/-- The loop variables of `run_automation` that later iterations read
(besides the session/profile world, kept separately in `AgentState`). -/
structure LoopCore where
  session_messages : String
  previous_plan : Option (List PlanStep)
  current_plan : CurrentPlan

/-- External inputs consumed by one iteration: the two `send_to_model`
results (already parsed and validated; `none` is any failure path of
`send_to_model`) and the element map returned by
`get_all_interactable_elements`. -/
structure IterEnv where
  navResponse : Option CommandOutput
  actionResponse : Option CommandOutput
  elements : List (String × String)

/-- How a run ended. -/
inductive RunResult where
  | noValidOutput : RunResult
  | stagnation : RunResult
  | done : RunResult
  | needsHelp : RunResult
  | fuelExhausted : RunResult
deriving DecidableEq, Repr

/-- An uncaught Python exception escaping `run_automation`. -/
inductive PyError where
  | indexError : PyError
deriving DecidableEq, Repr

/-- Result of one pass through the `while True` body: the prompts sent to
the model, the arguments of `manage_session(..., "save", ...)` calls, and
either a `break` (with the reason), a `continue` (with the next loop
variables), or an uncaught exception. -/
inductive IterStep where
  | halted (prompts : List String) (saves : List String) (r : RunResult) : IterStep
  | continued (prompts : List String) (saves : List String) (next : LoopCore) : IterStep
  | crashed (prompts : List String) (e : PyError) : IterStep

def IterStep.saves : IterStep → List String
  | .halted _ ss _ => ss
  | .continued _ ss _ => ss
  | .crashed _ _ => []

def IterStep.result? : IterStep → Option RunResult
  | .halted _ _ r => some r
  | _ => none

/-- One iteration of the `while True` body of `run_automation` (lines
306-436), for the single hard-coded user `"default_user"`.  Step order as
in the source: navigation prompt from the objective, `current_plan` and
`session_messages`; model call; the `model_output is None or not
model_output.PLAN` check; transcript append; stagnation check against
`previous_plan`; `commands[0]` (an uncaught IndexError when every
extracted command was falsy) executed with an empty element map via
`navPhaseExec`; element scan; action prompt; second model call and check;
transcript append; full batch execution against the scanned elements;
session save of `session_messages`; status dispatch on the second
round's status.  The session-store side effects of the iteration (the
`manage_session` load and save) are applied by `runIterAgent` below. -/
def runIterStep (raises : PageAction → Bool) (objective : String) (env : IterEnv)
    (st : LoopCore) : IterStep :=
  let p1 := navPrompt objective (renderCurrentPlan st.current_plan) st.session_messages
  match env.navResponse with
  | none => .halted [p1] [] .noValidOutput
  | some o1 =>
    if o1.PLAN = [] then .halted [p1] [] .noValidOutput
    else
      let commands := (process_model_output (some o1)).1
      let sm1 := st.session_messages ++ "\n" ++ dumpOutput o1
      if check_for_stagnation st.previous_plan (some o1.PLAN) then
        .halted [p1] [] .stagnation
      else
        let st2 : LoopCore :=
          ⟨sm1, some o1.PLAN, CurrentPlan.plan o1.PLAN⟩
        match commands with
        | [] => .crashed [p1] .indexError
        | c0 :: _ =>
          let _navResults := navPhaseExec raises c0
          let elems := env.elements
          let p2 := actionPrompt (reprKeyList (elems.map (fun e => e.1)))
            (renderCurrentPlan st2.current_plan) st2.session_messages
          match env.actionResponse with
          | none => .halted [p1, p2] [] .noValidOutput
          | some o2 =>
            if o2.PLAN = [] then .halted [p1, p2] [] .noValidOutput
            else
              let cmds2 := (process_model_output (some o2)).1
              let status2 := (process_model_output (some o2)).2.2
              let sm2 := st2.session_messages ++ "\n" ++ dumpOutput o2
              let st3 : LoopCore := ⟨sm2, st2.previous_plan, st2.current_plan⟩
              let _actResults := execCmds raises elems cmds2
              if status2 = "DONE" then .halted [p1, p2] [sm2] .done
              else if status2 = "NOT SURE" ∨ status2 = "WRONG" then
                .halted [p1, p2] [sm2] .needsHelp
              else .continued [p1, p2] [sm2] st3

/-- Session-store side effects of one iteration: the
`manage_session(user_id, "load")` at the top of the body always runs; the
`manage_session(user_id, "save", session_messages)` at line 425 runs
exactly when the iteration reaches it, i.e. exactly when the step result
carries a save, and with that argument. -/
def runIterAgent (raises : PageAction → Bool) (objective : String)
    (env : IterEnv) (st : LoopCore) (ag : AgentState) : AgentState :=
  let ag1 := manage_session ag "default_user" .load
  match (runIterStep raises objective env st).saves with
  | [] => ag1
  | s :: _ => manage_session ag1 "default_user" (.save (.str s))

/-- Observable trace of a whole run: prompts sent, save arguments, and
how it ended. -/
structure RunTrace where
  prompts : List String
  saves : List String
  result : RunResult
deriving Repr

/-- The `while True` loop, driven by fuel (the Python loop need not
terminate). Model responses and element scans are consumed one
`IterEnv` per iteration; an exhausted stream behaves like a failing
model call (`send_to_model` returning `None`). -/
def runLoop (raises : PageAction → Bool) (objective : String) :
    List IterEnv → LoopCore → AgentState → Nat → Except PyError RunTrace
  | _, _, _, 0 => .ok ⟨[], [], .fuelExhausted⟩
  | envs, st, ag, Nat.succ fuel =>
    match runIterStep raises objective (envs.headD ⟨none, none, []⟩) st with
    | .halted ps ss r => .ok ⟨ps, ss, r⟩
    | .crashed _ e => .error e
    | .continued ps ss st2 =>
      match runLoop raises objective envs.tail st2
          (runIterAgent raises objective (envs.headD ⟨none, none, []⟩) st ag) fuel with
      | .ok t => .ok ⟨ps ++ t.prompts, ss ++ t.saves, t.result⟩
      | .error e => .error e

/-- `run_automation()` for an objective typed by the operator, a profile
file already persisted with the given `session_history`, and the
abstracted external world. Initial loop variables as in lines 296-299. -/
def runAutomation (objective : String) (history : List Json)
    (envs : List IterEnv) (raises : PageAction → Bool) (fuel : Nat) :
    Except PyError RunTrace :=
  runLoop raises objective envs ⟨"", none, .noPlanYet⟩
    ⟨[], [("default_user", ⟨"default_user", [], history⟩)]⟩ fuel

/-- Projection of a run's trace (a crashed run has none). -/
def runTraceD (r : Except PyError RunTrace) : RunTrace :=
  match r with
  | .ok t => t
  | .error _ => ⟨[], [], .fuelExhausted⟩

/-- Modelled from the spec (amended C3): a command header the interpreter
skips with a warning — an unrecognized verb, `CLICK`/`SUBMIT` with no
element argument, or `TYPE` with fewer than two arguments. -/
def insufficientOrUnknown (verb : String) (args : List String) : Bool :=
  (verb != "GOTO_URL" && verb != "CLICK" && verb != "TYPE" &&
      verb != "SUBMIT" && verb != "GOOGLE_SEARCH_API")
    || (verb == "CLICK" && args.isEmpty)
    || (verb == "SUBMIT" && args.isEmpty)
    || (verb == "TYPE" && decide (args.length < 2))

/-- A page on which no browser primitive raises. -/
def noRaise : PageAction → Bool := fun _ => false

/-- Example navigation-phase response. -/
def exO1 : CommandOutput :=
  ⟨[⟨"go", "GOTO_URL https://example.com"⟩], [], [], none⟩

/-- Example action-phase response with `status` absent. -/
def exO2none : CommandOutput :=
  ⟨[⟨"act", "CLICK button_text_0"⟩], [], [], none⟩

/-- Example action-phase response with an explicit non-terminal status. -/
def exO2cont : CommandOutput :=
  ⟨[⟨"act", "CLICK button_text_0"⟩], [], [], some "CONTINUE"⟩

/-- Example action-phase response with `status` `DONE`. -/
def exO2done : CommandOutput :=
  ⟨[⟨"act", "CLICK button_text_0"⟩], [], [], some "DONE"⟩

/-- Example second-iteration navigation response (a different plan, so
the stagnation check passes). -/
def exO3 : CommandOutput :=
  ⟨[⟨"go again", "GOTO_URL https://example.org"⟩], [], [], none⟩

/-- Example second-iteration action response ending the run. -/
def exO4 : CommandOutput :=
  ⟨[⟨"finish", "CLICK link_text_0"⟩], [], [], some "DONE"⟩

/-- A validated, non-empty plan whose single step has an empty command
string: it passes the `not model_output.PLAN` check while
`process_model_output` extracts no command at all. -/
def exOEmptyCmds : CommandOutput :=
  ⟨[⟨"wait", ""⟩], [], [], none⟩

/-! ## Helper lemmas -/

/-- Splitting the empty command yields no token, so `parts[0]` is out of
range. -/
theorem pySplit_empty : pySplit "" = [] := by decide

/-- A primitive call that lets the batch complete did not raise: it
contributed exactly one performed action and passed the continuation
through. -/
theorem tryAction_completed {raises : PageAction → Bool} {a : PageAction}
    {k : List ExecEvent × ExecOutcome} {tr : List ExecEvent}
    (h : tryAction raises a k = (tr, ExecOutcome.completed)) :
    tr.length = k.1.length + 1 ∧ k.2 = ExecOutcome.completed := by
  unfold tryAction at h
  by_cases hb : raises a = true
  · rw [if_pos hb] at h
    simp only [Prod.mk.injEq] at h
    exact absurd h.2 (by simp)
  · rw [if_neg hb] at h
    simp only [Prod.mk.injEq] at h
    obtain ⟨h1, h2⟩ := h
    subst h1
    simp [h2]

/-! ## Claims -/

/-- C7: the Stagnation Detector is exact structural equality over the
full ordered step sequence: `is_stagnant(P, P)` is true for every plan
`P`, and `is_stagnant(P, Q)` is false whenever `P` and `Q` differ in at
least one step's description or command, or in length or order — even
for semantically equivalent commands. -/
theorem C7_stagnation_exact_equality (P Q : List PlanStep) :
    check_for_stagnation (some P) (some P) = true ∧
    (P ≠ Q → check_for_stagnation (some P) (some Q) = false) := by
  refine ⟨by simp [check_for_stagnation], fun h => ?_⟩
  simpa [check_for_stagnation] using h

/-- Witness for C7 at two concrete plans whose single steps have the same
description but different (semantically equivalent) commands. -/
theorem C7_stagnation_witness :
    check_for_stagnation (some [⟨"go", "GOTO_URL https://a.com"⟩])
        (some [⟨"go", "GOTO_URL https://a.com"⟩]) = true ∧
    check_for_stagnation (some [⟨"go", "GOTO_URL https://a.com"⟩])
        (some [⟨"go", "GOTO_URL https://a.com/"⟩]) = false :=
  ⟨(C7_stagnation_exact_equality [⟨"go", "GOTO_URL https://a.com"⟩]
      [⟨"go", "GOTO_URL https://a.com/"⟩]).1,
   (C7_stagnation_exact_equality [⟨"go", "GOTO_URL https://a.com"⟩]
      [⟨"go", "GOTO_URL https://a.com/"⟩]).2 (by decide)⟩

/-- C10: `manage_session(user_id, "clear")` resets only the in-memory
working history view (the global `session_data`); the persisted profile
store is left untouched — no write to storage occurs. -/
theorem C10_clear_only_memory (st : AgentState) (uid : String) :
    (manage_session st uid .clear).disk = st.disk ∧
    (manage_session st uid .clear).session_data = [] :=
  ⟨rfl, rfl⟩

/-- C2 (code bug): a validated plan whose single step has an empty
`command` passes the non-empty-`PLAN` check, yet `commands[0]` at line
370 then raises an uncaught IndexError that escapes the loop — the run
ends in an uncaught exception, contradicting the spec's claim that no
internal failure is fatal. -/
theorem C2_empty_command_plan_crashes :
    runAutomation "obj" [] [⟨some exOEmptyCmds, none, []⟩] noRaise 3 =
      .error .indexError := rfl

/-- C1 (counterexample): a run whose action-phase response has `status`
absent terminates after its first iteration reporting that the model
needs assistance (two prompts were sent, and the result is
`needsHelp`) — it does not loop back to step 1. -/
theorem C1_counterexample :
    (runTraceD (runAutomation "obj" []
        [⟨some exO1, some exO2none, []⟩] noRaise 3)).result =
      RunResult.needsHelp ∧
    (runTraceD (runAutomation "obj" []
        [⟨some exO1, some exO2none, []⟩] noRaise 3)).prompts.length = 2 :=
  ⟨rfl, rfl⟩

/-- C1 (amended): a model response with `status` absent (or the falsy
empty string) is normalised to `NOT SURE` by `process_model_output`, so
the iteration terminates with `needsHelp` (the model-requested-help
report); the loop proceeds to another iteration only for a present,
non-empty status other than `DONE`, `NOT SURE` and `WRONG`. -/
theorem C1_absent_status_terminates (raises : PageAction → Bool)
    (objective : String) (navR actR : Option CommandOutput)
    (elems : List (String × String)) (st : LoopCore) (o1 o2 : CommandOutput)
    (h1 : navR = some o1) (hplan1 : o1.PLAN ≠ [])
    (hstag : check_for_stagnation st.previous_plan (some o1.PLAN) = false)
    (hcmds : (process_model_output (some o1)).1 ≠ [])
    (h2 : actR = some o2) (hplan2 : o2.PLAN ≠ [])
    (hstatus : o2.status = none ∨ o2.status = some "") :
    (runIterStep raises objective ⟨navR, actR, elems⟩ st).result? =
      some RunResult.needsHelp := by
  have hst2 : (process_model_output (some o2)).2.2 = "NOT SURE" := by
    rcases hstatus with h | h <;> simp [process_model_output, h]
  subst h1 h2
  unfold runIterStep
  dsimp only
  rw [if_neg hplan1, if_neg (by simp [hstag])]
  rcases hcm : (process_model_output (some o1)).1 with _ | ⟨c0, cs⟩
  · exact absurd hcm hcmds
  · rw [if_neg hplan2, hst2]
    simp [IterStep.result?]

/-- Witness for C1 at the concrete example responses. -/
theorem C1_absent_status_witness :
    exO1.PLAN ≠ [] ∧ exO2none.PLAN ≠ [] ∧
    (runIterStep noRaise "obj" ⟨some exO1, some exO2none, []⟩
        ⟨"", none, .noPlanYet⟩).result? = some RunResult.needsHelp :=
  ⟨by decide, by decide,
   C1_absent_status_terminates noRaise "obj" (some exO1) (some exO2none) []
     ⟨"", none, .noPlanYet⟩ exO1 exO2none rfl (by decide) (by decide)
     (by decide) rfl (by decide) (Or.inl rfl)⟩

/-- C9: the navigation-phase execution (line 370) runs the plan's first
command against an empty element map, so a first command whose verb is
`CLICK`, `TYPE` or `SUBMIT` never performs a page action: it is skipped
as unmapped (or as under-parameterised) and the batch completes with no
page interaction. -/
theorem C9_nav_phase_no_interaction (raises : PageAction → Bool)
    (c verb : String) (args : List String)
    (hsplit : pySplit c = verb :: args)
    (hverb : verb = "CLICK" ∨ verb = "TYPE" ∨ verb = "SUBMIT") :
    (∀ a : PageAction, ExecEvent.act a ∉ (navPhaseExec raises c).1) ∧
    (navPhaseExec raises c).2 = ExecOutcome.completed := by
  have hc : c ≠ "" := by
    intro h
    rw [h, pySplit_empty] at hsplit
    exact List.noConfusion hsplit
  unfold navPhaseExec
  unfold execCmds
  rw [if_neg hc, hsplit]
  rcases hverb with h | h | h <;> subst h
  · rcases args with _ | ⟨name, extra⟩
    · exact ⟨fun a => by simp [execCmds], rfl⟩
    · exact ⟨fun a => by simp [lookupElem, execCmds], rfl⟩
  · rcases args with _ | ⟨name, _ | ⟨t, ts⟩⟩
    · exact ⟨fun a => by simp [execCmds], rfl⟩
    · exact ⟨fun a => by simp [execCmds], rfl⟩
    · exact ⟨fun a => by simp [lookupElem, execCmds], rfl⟩
  · rcases args with _ | ⟨name, extra⟩
    · exact ⟨fun a => by simp [execCmds], rfl⟩
    · exact ⟨fun a => by simp [lookupElem, execCmds], rfl⟩

/-- Witness for C9: a `CLICK` first command in the navigation phase only
warns and completes. -/
theorem C9_nav_phase_witness :
    (∀ a : PageAction,
      ExecEvent.act a ∉ (navPhaseExec noRaise "CLICK search_box").1) ∧
    (navPhaseExec noRaise "CLICK search_box").2 = ExecOutcome.completed :=
  C9_nav_phase_no_interaction noRaise "CLICK search_box" "CLICK"
    ["search_box"] (by decide) (Or.inl rfl)

/-- C3 (counterexample): `GOTO_URL` with no URL argument is not skipped
with a warning — evaluating `parts[1]` raises an IndexError that the
batch-level handler catches, aborting the remaining commands (here a
well-formed `GOTO_URL` that never runs), with no warning event and no
page-interaction primitive involved. -/
theorem C3_counterexample :
    execCmds noRaise [] ["GOTO_URL", "GOTO_URL https://example.com"] =
      ([], ExecOutcome.aborted ExecError.indexError) := rfl

/-- C3 (amended): an unrecognized verb, `CLICK`/`SUBMIT` with no element
name, or `TYPE` with fewer than two arguments is skipped with a warning
and execution continues; but `GOTO_URL` with no URL argument, or a
whitespace-only command, raises an IndexError inside the interpreter's
try block, which aborts the remaining commands of the batch (caught and
logged, like an exception from a page-interaction primitive, and never
re-raised to the caller). -/
theorem C3_skip_and_abort_paths :
    (∀ (raises : PageAction → Bool) (elements : List (String × String))
        (c verb : String) (args rest : List String),
        pySplit c = verb :: args →
        insufficientOrUnknown verb args = true →
        execCmds raises elements (c :: rest) =
          (ExecEvent.warnUnknown c :: (execCmds raises elements rest).1,
           (execCmds raises elements rest).2)) ∧
    (∀ (raises : PageAction → Bool) (elements : List (String × String))
        (c : String) (rest : List String),
        pySplit c = ["GOTO_URL"] →
        execCmds raises elements (c :: rest) =
          ([], ExecOutcome.aborted ExecError.indexError)) ∧
    (∀ (raises : PageAction → Bool) (elements : List (String × String))
        (c : String) (rest : List String),
        c ≠ "" → pySplit c = [] →
        execCmds raises elements (c :: rest) =
          ([], ExecOutcome.aborted ExecError.indexError)) := by
  refine ⟨?_, ?_, ?_⟩
  · intro raises elements c verb args rest hsplit hskip
    have hc : c ≠ "" := by
      intro h; rw [h, pySplit_empty] at hsplit; exact List.noConfusion hsplit
    simp only [execCmds]
    rw [if_neg hc, hsplit]
    split <;> simp_all [insufficientOrUnknown]
    omega
  · intro raises elements c rest hsplit
    have hc : c ≠ "" := by
      intro h; rw [h, pySplit_empty] at hsplit; exact List.noConfusion hsplit
    simp only [execCmds]
    rw [if_neg hc, hsplit]
    rfl
  · intro raises elements c rest hc hsplit
    simp only [execCmds]
    rw [if_neg hc, hsplit]

/-- Witness for C3: a made-up verb is skipped with a warning and the
following command still runs. -/
theorem C3_skip_witness :
    pySplit "FROBNICATE now" = ["FROBNICATE", "now"] ∧
    execCmds noRaise [] ["FROBNICATE now", "GOTO_URL https://example.com"] =
      (ExecEvent.warnUnknown "FROBNICATE now" ::
          (execCmds noRaise [] ["GOTO_URL https://example.com"]).1,
       (execCmds noRaise [] ["GOTO_URL https://example.com"]).2) :=
  ⟨by decide,
   C3_skip_and_abort_paths.1 noRaise [] "FROBNICATE now" "FROBNICATE"
     ["now"] ["GOTO_URL https://example.com"] (by decide) (by decide)⟩

/-- C8 (counterexample): a batch stops early without any page-interaction
primitive raising: `GOOGLE_SEARCH_API` returns its results immediately,
so the following `CLICK a` — whose element is mapped — is never
executed, although no primitive raised (`noRaise` raises on nothing). -/
theorem C8_counterexample :
    execCmds noRaise [("a", "selector_a")] ["GOOGLE_SEARCH_API q", "CLICK a"] =
      ([ExecEvent.searchApi "q"], ExecOutcome.searchReturned "q") := rfl

/-- C8 (amended): a `CLICK`, `TYPE` or `SUBMIT` command whose element
name is absent from the map is skipped with a warning and execution
continues with the next command; and whenever a batch completes
normally, every command of the batch was handled (one event each) — the
batch stops early only through a non-completed outcome: a caught
exception (a page-interaction primitive raising, or the IndexError of a
malformed `GOTO_URL`/blank command) or a `GOOGLE_SEARCH_API` returning
its results. -/
theorem C8_unmapped_isolation :
    (∀ (raises : PageAction → Bool) (elements : List (String × String))
        (c name : String) (extra rest : List String),
        pySplit c = "CLICK" :: name :: extra →
        lookupElem elements name = none →
        execCmds raises elements (c :: rest) =
          (ExecEvent.warnUnmapped name :: (execCmds raises elements rest).1,
           (execCmds raises elements rest).2)) ∧
    (∀ (raises : PageAction → Bool) (elements : List (String × String))
        (c name t : String) (ts rest : List String),
        pySplit c = "TYPE" :: name :: t :: ts →
        lookupElem elements name = none →
        execCmds raises elements (c :: rest) =
          (ExecEvent.warnUnmapped name :: (execCmds raises elements rest).1,
           (execCmds raises elements rest).2)) ∧
    (∀ (raises : PageAction → Bool) (elements : List (String × String))
        (c name : String) (extra rest : List String),
        pySplit c = "SUBMIT" :: name :: extra →
        lookupElem elements name = none →
        execCmds raises elements (c :: rest) =
          (ExecEvent.warnUnmapped name :: (execCmds raises elements rest).1,
           (execCmds raises elements rest).2)) ∧
    (∀ (raises : PageAction → Bool) (elements : List (String × String))
        (cmds : List String) (tr : List ExecEvent),
        execCmds raises elements cmds = (tr, ExecOutcome.completed) →
        tr.length = cmds.length) := by
  refine ⟨?_, ?_, ?_, ?_⟩
  · intro raises elements c name extra rest hsplit hl
    have hc : c ≠ "" := by
      intro h; rw [h, pySplit_empty] at hsplit; exact List.noConfusion hsplit
    simp only [execCmds]
    rw [if_neg hc, hsplit]
    simp [hl]
  · intro raises elements c name t ts rest hsplit hl
    have hc : c ≠ "" := by
      intro h; rw [h, pySplit_empty] at hsplit; exact List.noConfusion hsplit
    simp only [execCmds]
    rw [if_neg hc, hsplit]
    simp [hl]
  · intro raises elements c name extra rest hsplit hl
    have hc : c ≠ "" := by
      intro h; rw [h, pySplit_empty] at hsplit; exact List.noConfusion hsplit
    simp only [execCmds]
    rw [if_neg hc, hsplit]
    simp [hl]
  · intro raises elements cmds
    induction cmds with
    | nil =>
        intro tr h
        rw [execCmds] at h
        simp only [Prod.mk.injEq] at h
        obtain ⟨h1, _⟩ := h
        simp [← h1]
    | cons c rest ih =>
        intro tr h
        rw [execCmds] at h
        split at h <;> (try split at h) <;> (try split at h) <;>
          first
            | (simp only [Prod.mk.injEq] at h
               exact absurd h.2 (by simp))
            | (simp only [Prod.mk.injEq] at h
               obtain ⟨h1, h2⟩ := h
               subst h1
               have hlen := ih (execCmds raises elements rest).1 (by rw [← h2])
               simp [hlen])
            | (obtain ⟨h1, h2⟩ := tryAction_completed h
               have hlen := ih (execCmds raises elements rest).1 (by rw [← h2])
               simp [h1, hlen])

/-- Witness for C8: `CLICK missing_name` under an empty element map
warns, does not throw, and the next command still runs. -/
theorem C8_unmapped_witness :
    pySplit "CLICK missing_name" = ["CLICK", "missing_name"] ∧
    lookupElem [] "missing_name" = none ∧
    execCmds noRaise [] ["CLICK missing_name", "GOTO_URL https://example.com"] =
      (ExecEvent.warnUnmapped "missing_name" ::
          (execCmds noRaise [] ["GOTO_URL https://example.com"]).1,
       (execCmds noRaise [] ["GOTO_URL https://example.com"]).2) :=
  ⟨by decide, rfl,
   C8_unmapped_isolation.1 noRaise [] "CLICK missing_name" "missing_name" []
     ["GOTO_URL https://example.com"] (by decide) rfl⟩

/-- C5 (counterexample): in a two-iteration run, the entry appended to
the session store at the second iteration's save is the cumulative
transcript of all four model rounds — not the transcript of the second
iteration's two rounds only. -/
theorem C5_counterexample :
    (runTraceD (runAutomation "obj" []
        [⟨some exO1, some exO2cont, []⟩, ⟨some exO3, some exO4, []⟩]
        noRaise 3)).saves[1]? =
      some ("" ++ "\n" ++ dumpOutput exO1 ++ "\n" ++ dumpOutput exO2cont ++
        "\n" ++ dumpOutput exO3 ++ "\n" ++ dumpOutput exO4) ∧
    ("" ++ "\n" ++ dumpOutput exO1 ++ "\n" ++ dumpOutput exO2cont ++
        "\n" ++ dumpOutput exO3 ++ "\n" ++ dumpOutput exO4) ≠
      ("\n" ++ dumpOutput exO3 ++ "\n" ++ dumpOutput exO4) :=
  ⟨rfl, by decide⟩

/-- C5 (amended): the save of each iteration is called with the whole
`session_messages` accumulator — the transcript entering the iteration
(all previous iterations' rounds) extended by the dumps of this
iteration's navigation-phase and action-phase model outputs. Only for
the first iteration is this exactly the transcript of that iteration's
two rounds. -/
theorem C5_save_is_cumulative_transcript (raises : PageAction → Bool)
    (objective : String) (navR actR : Option CommandOutput)
    (elems : List (String × String)) (st : LoopCore)
    (o1 o2 : CommandOutput) (s : String)
    (h1 : navR = some o1) (h2 : actR = some o2)
    (hs : s ∈ (runIterStep raises objective ⟨navR, actR, elems⟩ st).saves) :
    s = st.session_messages ++ "\n" ++ dumpOutput o1 ++ "\n" ++ dumpOutput o2 := by
  subst h1 h2
  unfold runIterStep at hs
  dsimp only at hs
  split at hs
  · simp [IterStep.saves] at hs
  · split at hs
    · simp [IterStep.saves] at hs
    · split at hs
      · simp [IterStep.saves] at hs
      · split at hs
        · simp [IterStep.saves] at hs
        · split at hs
          · simp [IterStep.saves] at hs
            exact hs
          · split at hs <;> (simp [IterStep.saves] at hs; exact hs)

/-- Witness for C5 at a concrete first iteration. -/
theorem C5_save_witness :
    ("" ++ "\n" ++ dumpOutput exO1 ++ "\n" ++ dumpOutput exO2done) ∈
      (runIterStep noRaise "obj" ⟨some exO1, some exO2done, []⟩
        ⟨"", none, .noPlanYet⟩).saves ∧
    ("" ++ "\n" ++ dumpOutput exO1 ++ "\n" ++ dumpOutput exO2done) =
      ("" : String) ++ "\n" ++ dumpOutput exO1 ++ "\n" ++ dumpOutput exO2done :=
  ⟨by decide,
   C5_save_is_cumulative_transcript noRaise "obj" (some exO1) (some exO2done)
     [] ⟨"", none, .noPlanYet⟩ exO1 exO2done _ rfl rfl (by decide)⟩

/-- A step payload validates exactly when it is a map carrying
string-typed `step_desc` and `command` (empty strings included). -/
theorem validatePlanStep_isSome (j : Json) :
    (validatePlanStep j).isSome = stepWellShaped j := by
  cases j <;> simp [validatePlanStep, stepWellShaped, asObj]
  case obj fields =>
    cases h1 : lookupField fields "step_desc" with
    | none => simp
    | some v1 =>
      cases v1 <;> simp [asStr]
      case str s1 =>
        cases h2 : lookupField fields "command" with
        | none => simp
        | some v2 => cases v2 <;> simp [asStr]

/-- A step list validates exactly when each of its steps does. -/
theorem validateSteps_isSome (js : List Json) :
    (validateSteps js).isSome = js.all stepWellShaped := by
  induction js with
  | nil => rfl
  | cons j js ih =>
    rw [List.all_cons, ← validatePlanStep_isSome, ← ih]
    cases hj : validatePlanStep j <;> cases hjs : validateSteps js <;>
      simp [validateSteps, hj, hjs]

/-- C4 (counterexample): a payload whose single step has empty-string
`step_desc` and `command` is accepted by the validator and a full
`CommandOutput` is constructed — although the claim's acceptance
condition (non-empty `step_desc` and `command`) demands rejection. -/
theorem C4_counterexample :
    validateCommandOutput (Json.obj
      [("PLAN", .arr [.obj [("step_desc", .str ""), ("command", .str "")]]),
       ("pageContextObjects", .obj []), ("userInfo", .obj [])]) =
      some ⟨[⟨"", ""⟩], [], [], none⟩ := rfl

/-- C4 (amended): the validator accepts a payload iff `PLAN` is a
sequence of maps each carrying string-typed `step_desc` and `command`
(empty strings allowed — pydantic's `str` does not require
non-emptiness), the required maps `pageContextObjects` and `userInfo`
are present as maps, and `status` is absent, null or a string;
acceptance is all-or-nothing — a violating payload yields `none` and no
partial object. -/
theorem C4_accepts_iff_wellshaped (j : Json) :
    (validateCommandOutput j).isSome = outputWellShaped j := by
  cases j <;> simp [validateCommandOutput, outputWellShaped, asObj]
  case obj fields =>
    cases hp : lookupField fields "PLAN" with
    | none => simp
    | some pv =>
      cases pv <;> simp
      case arr elems =>
        rw [← validateSteps_isSome]
        cases hm : validateSteps elems with
        | none => simp
        | some plan =>
          simp only [Option.bind_some, Option.isSome_some, Bool.true_and]
          cases hpco : lookupField fields "pageContextObjects" with
          | none => simp
          | some pcov =>
            cases pcov <;> simp [asObj]
            case obj pco =>
              cases hui : lookupField fields "userInfo" with
              | none => simp
              | some uiv =>
                cases uiv <;> simp [asObj]
                case obj ui =>
                  cases hst : lookupField fields "status" with
                  | none => simp
                  | some stv => cases stv <;> simp

/-- The prompt trace and the whole observable run trace do not depend on
the session-store state the run starts from: the history loaded by
`manage_session(user_id, "load")` lands in the global `session_data`,
which nothing reads, and the prompts interpolate only the objective, the
current plan and the in-process `session_messages`. -/
theorem runLoop_agent_irrel (raises : PageAction → Bool) (objective : String) :
    ∀ (fuel : Nat) (envs : List IterEnv) (st : LoopCore) (ag ag' : AgentState),
      runLoop raises objective envs st ag fuel =
        runLoop raises objective envs st ag' fuel := by
  intro fuel
  induction fuel with
  | zero => intro envs st ag ag'; rfl
  | succ n ih =>
    intro envs st ag ag'
    simp only [runLoop]
    cases hstep : runIterStep raises objective (envs.headD ⟨none, none, []⟩) st with
    | halted ps ss r => rfl
    | crashed ps e => rfl
    | continued ps ss st2 =>
      dsimp only
      rw [ih envs.tail st2
        (runIterAgent raises objective (envs.headD ⟨none, none, []⟩) st ag)
        (runIterAgent raises objective (envs.headD ⟨none, none, []⟩) st ag')]

/-- C6 (counterexample): the run function is literally constant in the
persisted `session_history`: every run — its prompts included — is
identical to the run from an empty persisted history, for all
objectives, model responses, pages and fuel. Hence there is no pair of
runs differing only in persisted history whose prompt text differs: the
loaded history never enriches any prompt. -/
theorem C6_counterexample :
    (fun (objective : String) (history : List Json) (envs : List IterEnv)
         (raises : PageAction → Bool) (fuel : Nat) =>
       runAutomation objective history envs raises fuel) =
    (fun objective _ envs raises fuel =>
       runAutomation objective [] envs raises fuel) := by
  funext objective history envs raises fuel
  unfold runAutomation
  exact runLoop_agent_irrel raises objective fuel envs _ _ _

/-- C6 (amended): the session history loaded from the persisted profile
is stored in the global `session_data` and never read afterwards; the
prompt built each iteration depends only on the objective, the current
plan and the transcript accumulated in-process, so two runs that differ
only in the persisted `session_history` send identical prompt text (the
persisted history survives restarts in the profile file, and saves
append to it, but it does not enrich prompts). -/
theorem C6_history_never_read (objective : String) (h1 h2 : List Json)
    (envs : List IterEnv) (raises : PageAction → Bool) (fuel : Nat) :
    runAutomation objective h1 envs raises fuel =
      runAutomation objective h2 envs raises fuel :=
  runLoop_agent_irrel raises objective fuel envs ⟨"", none, .noPlanYet⟩
    ⟨[], [("default_user", ⟨"default_user", [], h1⟩)]⟩
    ⟨[], [("default_user", ⟨"default_user", [], h2⟩)]⟩

end MultiOllama
